import Mathlib

/-!
Shallow embedding of the Resume-Improver repository (backend `main.py`,
Streamlit client `app.py`, secondary backend copy in `config.py`).

Strings are modelled as Lean `String` / `List Char`.  Python regular
expressions used by the code are all of the shape `literal-label (\d+)`
(case-insensitive first match) or plain literal search, and are embedded
as explicit scanning functions below.  The external generative engine is
modelled as an input: every function that consumes its reply takes the
raw reply text (or an `Except` representing a failed call) as an argument.
-/

namespace ResumeImprover

/-! ### Character / string primitives mirroring Python string operations -/

/-- Python whitespace as stripped by `str.strip()` (ASCII subset). -/
def isPyWS (c : Char) : Bool :=
  c = ' ' || c = '\t' || c = '\n' || c = '\r' || c = '\x0b' || c = '\x0c'

/-- Python `str.strip()`: drop leading and trailing whitespace. -/
def pyStrip (l : List Char) : List Char :=
  ((l.dropWhile isPyWS).reverse.dropWhile isPyWS).reverse

/-- Python `str.lower()` (ASCII subset, all literals involved are ASCII). -/
def pyLower (l : List Char) : List Char :=
  l.map Char.toLower

/-- Value of a digit run, as computed by Python `int(...)` on the regex group. -/
def digitsToNat (ds : List Char) : Nat :=
  ds.foldl (fun n c => 10 * n + (c.toNat - 48)) 0

/-- If `pat` is literally at the head of `l`, return the rest of `l`. -/
def matchDrop? : List Char → List Char → Option (List Char)
  | [], l => some l
  | _ :: _, [] => none
  | p :: ps, c :: cs => if p = c then matchDrop? ps cs else none

/-- Case-insensitive variant of `matchDrop?` (regex `re.IGNORECASE`). -/
def matchDropCI? : List Char → List Char → Option (List Char)
  | [], l => some l
  | _ :: _, [] => none
  | p :: ps, c :: cs => if p.toLower = c.toLower then matchDropCI? ps cs else none

/-- Python `needle in hay` (substring containment). -/
def containsSub (needle : List Char) : List Char → Bool
  | [] => (matchDrop? needle []).isSome
  | c :: rest => (matchDrop? needle (c :: rest)).isSome || containsSub needle rest

/-- `re.search(label + r"(\d+)", text, re.IGNORECASE)`: leftmost position where
the literal label (case-insensitively) is followed by at least one digit;
returns the value of the maximal digit run there. -/
def searchNum (label : List Char) : List Char → Option Nat
  | [] => none
  | c :: rest =>
    match matchDropCI? label (c :: rest) with
    | some after =>
      let ds := after.takeWhile Char.isDigit
      if ds.isEmpty then searchNum label rest else some (digitsToNat ds)
    | none => searchNum label rest

/-- `re.search(label, text, re.IGNORECASE)` used for its match position:
split `text` into the part before the first case-insensitive occurrence of
`label` and the part from that occurrence on. -/
def splitAtLabelCI (label : List Char) : List Char → Option (List Char × List Char)
  | [] => none
  | c :: rest =>
    if (matchDropCI? label (c :: rest)).isSome then some ([], c :: rest)
    else (splitAtLabelCI label rest).map (fun p => (c :: p.1, p.2))

/-- Python `str.replace(needle, repl)`: left-to-right, non-overlapping.
Structured with an explicit fuel counter (initial fuel = input length, which
suffices for every non-empty needle) so that the kernel can evaluate it. -/
def replaceAllAux (needle repl : List Char) : Nat → List Char → List Char
  | _, [] => []
  | 0, l => l
  | fuel + 1, c :: rest =>
    match matchDrop? needle (c :: rest) with
    | some after => repl ++ replaceAllAux needle repl fuel after
    | none => c :: replaceAllAux needle repl fuel rest

/-- Python `str.replace(needle, repl)` on character lists. -/
def replaceAll (needle repl l : List Char) : List Char :=
  replaceAllAux needle repl l.length l

/-- `re.sub(label + r"\d+", "", text, re.IGNORECASE)`: remove every
occurrence of the literal label followed by a digit run. -/
def subNumAllAux (label : List Char) : Nat → List Char → List Char
  | _, [] => []
  | 0, l => l
  | fuel + 1, c :: rest =>
    match matchDropCI? label (c :: rest) with
    | some after =>
      let ds := after.takeWhile Char.isDigit
      if ds.isEmpty then c :: subNumAllAux label fuel rest
      else subNumAllAux label fuel (after.drop ds.length)
    | none => c :: subNumAllAux label fuel rest

/-- `re.sub(label + r"\d+", "", text, re.IGNORECASE)` on character lists. -/
def subNumAll (label l : List Char) : List Char :=
  subNumAllAux label l.length l

/-! ### Sentinel, labels, markers (from `main.py`) -/

/-- `DEFAULT_JD = "No job description provided."` -/
def DEFAULT_JD : String := "No job description provided."

/-- Literal part of the pattern `r"ATS Score: (\d+)"`. -/
def atsLabel : List Char := "ATS Score: ".data

/-- Literal part of the pattern `r"Total Weaknesses: (\d+)"`. -/
def twLabel : List Char := "Total Weaknesses: ".data

/-- The section header searched by `re.search(r"Weaknesses:", ...)`. -/
def weaknessesLabel : List Char := "Weaknesses:".data

/-- The resolution marker of the improvement chat. -/
def WEAKNESS_MARKER : List Char := "[WEAKNESS_RESOLVED]".data

/-- The completion marker of the build interview chat. -/
def BUILD_MARKER : List Char := "[BUILD_COMPLETE]".data

/-! ### `run_analysis` (main.py lines 202-327) -/

/-- The dictionary returned by `run_analysis`. -/
structure AnalysisResult where
  analysis_results : String
  ats_score : Nat
  total_weaknesses : Nat
deriving DecidableEq

/-- `run_analysis(resume_text, jd_text)` of `main.py`, with the engine reply
(`model.generate_content(prompt).text`) supplied as the input `engineText`.
The prompt that is sent only selects between the general and targeted
variant; its selection is modelled by `run_analysis_prompt_variant` below,
and the parsing of the reply is modelled here exactly as in the source. -/
def run_analysis (resume_text jd_text engineText : String) : AnalysisResult :=
  let _ := resume_text
  let is_general_request := jd_text == DEFAULT_JD
  let text := engineText.data
  let ats_score : Nat :=
    if is_general_request then 0 else (searchNum atsLabel text).getD 0
  let total_weaknesses : Nat := (searchNum twLabel text).getD 1
  let parts :=
    match splitAtLabelCI weaknessesLabel text with
    | some pq => pq
    | none => (text, [])
  let analysis_text := subNumAll twLabel (subNumAll atsLabel parts.1)
  let weakness_list_text := subNumAll twLabel parts.2
  let analysis_text :=
    if (pyStrip analysis_text).isEmpty || pyLower (pyStrip analysis_text) == "none".data
    then "Here is the analysis of your resume:".data
    else analysis_text
  let final_analysis :=
    pyStrip (pyStrip analysis_text ++ ('\n' :: '\n' :: []) ++ pyStrip weakness_list_text)
  { analysis_results := ⟨final_analysis⟩
    ats_score := ats_score
    total_weaknesses := max 1 total_weaknesses }

/-! ### Prompt-variant selection (the `is_general_request` branch of each endpoint) -/

/-- Which of the two parallel prompt blocks an endpoint selects. -/
inductive PromptVariant
  | general
  | targeted
deriving DecidableEq

/-- `is_general_request = (jd_text == DEFAULT_JD)`, computed separately at
each of the five call sites in `main.py`. -/
def is_general_request (jd_text : String) : Bool :=
  jd_text == DEFAULT_JD

/-- Prompt branch taken by `run_analysis` (main.py line 209/212/246). -/
def run_analysis_prompt_variant (jd_text : String) : PromptVariant :=
  if is_general_request jd_text then .general else .targeted

/-- Prompt branch taken by `chat_endpoint` (main.py line 424/427/444). -/
def chat_prompt_variant (jd_text : String) : PromptVariant :=
  if is_general_request jd_text then .general else .targeted

/-- Prompt branch taken by `generate_resume_endpoint` (main.py line 487/490/516). -/
def generate_resume_prompt_variant (jd_text : String) : PromptVariant :=
  if is_general_request jd_text then .general else .targeted

/-- First-message branch taken by `start_build_chat_endpoint` (main.py line 612/615/617). -/
def start_build_chat_variant (jd_text : String) : PromptVariant :=
  if is_general_request jd_text then .general else .targeted

/-- Prompt branch taken by `build_chat_endpoint` (main.py line 627/630/656). -/
def build_chat_prompt_variant (jd_text : String) : PromptVariant :=
  if is_general_request jd_text then .general else .targeted

/-! ### Chat and build-chat endpoints (main.py lines 418-479 and 623-698) -/

/-- Pydantic `ChatMessage`. -/
structure ChatMessage where
  role : String
  content : String
deriving DecidableEq

/-- Pydantic `ChatRequest`. -/
structure ChatRequest where
  resume_text : String
  analysis_results : String
  messages : List ChatMessage
  jd_text : String
deriving DecidableEq

/-- Pydantic `ChatResponse`. -/
structure ChatResponse where
  ai_response : String
  weakness_resolved : Bool
deriving DecidableEq

/-- Pydantic `BuildChatRequest`. -/
structure BuildChatRequest where
  messages : List ChatMessage
  jd_text : String
deriving DecidableEq

/-- Pydantic `BuildChatResponse`. -/
structure BuildChatResponse where
  ai_response : String
  build_complete : Bool
deriving DecidableEq

/-- The marker handling of `chat_endpoint` (main.py lines 469-477):
`resolved = "[WEAKNESS_RESOLVED]" in text` followed by
`text.replace("[WEAKNESS_RESOLVED]", "").strip()`. -/
def parseChatReply (raw : String) : ChatResponse :=
  { ai_response := ⟨pyStrip (replaceAll WEAKNESS_MARKER [] raw.data)⟩
    weakness_resolved := containsSub WEAKNESS_MARKER raw.data }

/-- The marker handling of `build_chat_endpoint` (main.py lines 688-696). -/
def parseBuildReply (raw : String) : BuildChatResponse :=
  { ai_response := ⟨pyStrip (replaceAll BUILD_MARKER [] raw.data)⟩
    build_complete := containsSub BUILD_MARKER raw.data }

/-- Result of an endpoint whose body is guarded by `try/except`, with the
last-element access `request.messages[-1]` sitting before (outside) the
`try` block: an empty message list raises an uncaught index error that is
not converted into the endpoint's composed error detail. -/
inductive EndpointOutcome (α : Type)
  | ok (value : α)
  | composedError (detail : String)
  | uncaughtIndexError
deriving DecidableEq

/-- `chat_endpoint` of `main.py`: reads `request.messages[-1].content` outside
the `try` block, then calls the engine (its reply or failure is the `engine`
argument) and parses the markers inside the `try` block. -/
def chat_endpoint (request : ChatRequest) (engine : Except String String) :
    EndpointOutcome ChatResponse :=
  match request.messages.getLast? with
  | none => .uncaughtIndexError
  | some _user_prompt =>
    match engine with
    | .error e => .composedError ("Error in chat response: " ++ e)
    | .ok text => .ok (parseChatReply text)

/-- `build_chat_endpoint` of `main.py`: same shape as `chat_endpoint` with the
build-completion marker. -/
def build_chat_endpoint (request : BuildChatRequest) (engine : Except String String) :
    EndpointOutcome BuildChatResponse :=
  match request.messages.getLast? with
  | none => .uncaughtIndexError
  | some _user_prompt =>
    match engine with
    | .error e => .composedError ("Error in build-chat response: " ++ e)
    | .ok text => .ok (parseBuildReply text)

/-! ### Analyze / synthesize endpoints and their minimum-text gates -/

/-- Outcome of the analyze-style endpoints. -/
inductive AnalyzeOutcome
  | rejected (detail : String)
  | analyzed (resume_text : String) (result : AnalysisResult)
deriving DecidableEq

/-- `analyze_resume_endpoint` of `main.py` (lines 379-391): text extraction
is an external collaborator, so the extracted text is an input; the endpoint
rejects exactly the falsy (empty) extracted text and otherwise runs
`run_analysis`. -/
def analyze_resume_endpoint (extracted_text jd_text engineText : String) : AnalyzeOutcome :=
  if extracted_text == "" then .rejected "Could not extract text from file."
  else .analyzed extracted_text (run_analysis extracted_text jd_text engineText)

/-- `synthesize_and_analyze_endpoint` of `main.py` (lines 701-733): the
synthesized resume text (an engine reply) is rejected when falsy or shorter
than 50 characters, else analyzed via `run_analysis` (loop-back). -/
def synthesize_and_analyze_endpoint (synthesized_resume jd_text engineText : String) :
    AnalyzeOutcome :=
  if synthesized_resume == "" || synthesized_resume.length < 50
  then .rejected "Failed to synthesize resume from chat."
  else .analyzed synthesized_resume (run_analysis synthesized_resume jd_text engineText)

/-- The gate `if not text or len(text) < 50` of the secondary backend copy
(`config.py`, `/api/analyze-resume`, lines 547-548): `true` iff the request
is rejected with "Unable to extract sufficient text from file". -/
def copy2_analyze_gate_rejects (text : String) : Bool :=
  text == "" || text.length < 50

/-! ### Document synthesis: templates, character normalization, generate endpoint -/

/-- `ATS_TEMPLATE_CLASSIC` of `main.py`. -/
def ATS_TEMPLATE_CLASSIC : String := "
[Full Name]
[Phone Number] | [Email Address] | [LinkedIn URL]

PROFESSIONAL SUMMARY
[One or two sentences summarizing your experience and skills.]

SKILLS
- Technical Skills: [List, e.g., Python, React, AWS, etc.]
- Soft Skills: [List, e.g., Communication, Teamwork, etc.]

EXPERIENCE
[Job Title] | [Company Name] | [City, State] | [Start Date] – [End Date or Present]
- [Accomplishment-driven bullet point.]
- [Quantifiable achievement, e.g., \"Increased X by Y%\".]

[Job Title] | [Company Name] | [City, State] | [Start Date] – [End Date]
- [Accomplishment-driven bullet point.]

PROJECTS
[Project Name] | [Link to GitHub/Live Demo]
- [Bullet point describing the project and its purpose.]
- [Bullet point describing your role and technologies used.]

EDUCATION
[Degree, e.g., B.S. Computer Science] | [University Name] | [Graduation Date]
"

/-- `ATS_TEMPLATE_MODERN` of `main.py`. -/
def ATS_TEMPLATE_MODERN : String := "
[Full Name]
[City, State, Zip Code] | [Phone Number] | [Email Address] | [LinkedIn URL]

---
PROFESSIONAL SUMMARY
[A 3-4 line summary highlighting your key achievements and skills,
tailored to the job description.]

---
CORE COMPETENCIES
- Skill 1: [Brief detail]
- Skill 2: [Brief detail]
- Skill 3: [Brief detail]
- Skill 4: [Brief detail]
- Skill 5: [Brief detail]
- Skill 6: [Brief detail]

---
PROFESSIONAL EXPERIENCE

[Company Name] | [City, State]
[Job Title] | [Start Date] – [End Date or Present]
- [Accomplishment-driven bullet point. Use a strong action verb.]
- [Quantifiable achievement, e.g., \"Increased X by Y%\".]
- [Another key responsibility or achievement.]

[Company Name] | [City, State]
[Job Title] | [Start Date] – [End Date]
- [Accomplishment-driven bullet point.]
- [Quantifiable achievement.]

---
PROJECTS

[Project Name] | [Technologies Used]
- [Bullet point describing the project and its purpose/outcome.]
- [Bullet point describing your specific contribution.]

---
EDUCATION

[University Name] | [City, State]
[Degree, e.g., B.S. Computer Science] | [Graduation Date]
"

/-- `ATS_TEMPLATE_SKILLS_FIRST` of `main.py`. -/
def ATS_TEMPLATE_SKILLS_FIRST : String := "
[Full Name]
[Phone Number] | [Email Address] | [LinkedIn URL]

PROFESSIONAL SUMMARY
[A 2-3 line summary focused on your skills and career goals.]

---
TECHNICAL SKILLS

- Programming Languages: [List]
- Frameworks/Libraries: [List]
- Databases: [List]
- Cloud/DevOps: [List]

---
RELEVANT EXPERIENCE & PROJECTS

[Skill Category 1, e.g., \"AI/Machine Learning\"]
- [Project or Experience bullet point demonstrating this skill.]
- [Project or Experience bullet point demonstrating this skill.]

[Skill Category 2, e.g., \"Web Development\"]
- [Project or Experience bullet point demonstrating this skill.]
- [Project or Experience bullet point demonstrating this skill.]

[Skill Category 3, e.g., \"Data Analysis\"]
- [Project or Experience bullet point demonstrating this skill.]

---
WORK HISTORY (Chronological)

[Job Title] | [Company Name] | [Start Date] – [End Date or Present]
[Job Title] | [Company Name] | [Start Date] – [End Date]

---
EDUCATION
[Degree, e.g., B.S. Computer Science] | [University Name] | [Graduation Date]
"

/-- `TEMPLATES.get(request.template_name, TEMPLATES["classic"])`: dictionary
lookup with the classic skeleton as default. -/
def TEMPLATES_get (template_name : String) : String :=
  if template_name == "classic" then ATS_TEMPLATE_CLASSIC
  else if template_name == "modern" then ATS_TEMPLATE_MODERN
  else if template_name == "skills_first" then ATS_TEMPLATE_SKILLS_FIRST
  else ATS_TEMPLATE_CLASSIC

/-- The typographic replacement map of `generate_resume_endpoint`
(main.py lines 551-559), `replacements`. -/
def pdfReplacements : List (Char × List Char) :=
  [('–', ['-']),
   ('—', ['-', '-']),
   ('‘', ['\x27']),
   ('’', ['\x27']),
   ('“', ['\x22']),
   ('”', ['\x22']),
   ('•', ['-'])]

/-- The replacement loop `for char, replacement in replacements.items(): ...`. -/
def applyReplacements (l : List Char) : List Char :=
  pdfReplacements.foldl (fun acc p => replaceAll [p.1] p.2 acc) l

/-- `text.encode('latin-1', 'replace').decode('latin-1')`: characters above
U+00FF become the replacement byte `?`; all others survive unchanged. -/
def latin1Sanitize (l : List Char) : List Char :=
  l.map (fun c => if c.toNat ≤ 255 then c else '?')

/-- The full normalization of the synthesized resume text before rendering
(main.py lines 551-570): replacement map, then latin-1 encode/decode. -/
def normalizePdfText (s : String) : String :=
  ⟨latin1Sanitize (applyReplacements s.data)⟩

/-- Observable result of `generate_resume_endpoint` (main.py lines 482-582):
the template skeleton injected into the synthesis prompt, the
Content-Disposition header value, and the normalized text handed to the PDF
renderer.  Given an engine reply, the endpoint always succeeds. -/
structure GenerateResumeResult where
  synthesis_template : String
  content_disposition : String
  pdf_text : String
deriving DecidableEq

/-- `generate_resume_endpoint` of `main.py`, with the engine synthesis reply
supplied as input.  The prompt-variant selection on `jd_text` is modelled by
`generate_resume_prompt_variant`. -/
def generate_resume_endpoint (template_name jd_text engineReply : String) :
    GenerateResumeResult :=
  let _ := jd_text
  { synthesis_template := TEMPLATES_get template_name
    content_disposition := "attachment;filename=improved_resume_" ++ template_name ++ ".pdf"
    pdf_text := normalizePdfText engineReply }

/-! ### Client session state machine (`app.py`) -/

/-- `st.session_state.app_state` values of `app.py`. -/
inductive AppState
  | home
  | analysisDone
  | chatMode
deriving DecidableEq

/-- The `st.session_state` keys used by `app.py`. -/
structure ClientState where
  app_state : AppState
  resume_text : String
  analysis_results : String
  messages : List ChatMessage
  ats_score : Nat
  total_weaknesses : Nat
  weaknesses_covered : Nat
  final_pdf_bytes : Option String
  final_pdf_name : String
  jd_text : String
deriving DecidableEq

/-- `clear_session()` of `app.py` (lines 203-213): sets every session key,
so the result is a constant state (also the state after the first-contact
initialization, which runs `clear_session`). -/
def clear_session : ClientState :=
  { app_state := .home
    resume_text := ""
    analysis_results := ""
    messages := []
    ats_score := 0
    total_weaknesses := 0
    weaknesses_covered := 0
    final_pdf_bytes := none
    final_pdf_name := ""
    jd_text := "" }

/-- Body of the `/analyze` response consumed by `render_home_page`. -/
structure AnalysisResponse where
  resume_text : String
  analysis_results : String
  ats_score : Nat
  total_weaknesses : Nat
deriving DecidableEq

/-- The session mutation on a 200 response from `/analyze`
(`render_home_page`, app.py lines 62-72). -/
def apply_analyze_success (s : ClientState) (jd_sent : String) (resp : AnalysisResponse) :
    ClientState :=
  { s with
    resume_text := resp.resume_text
    analysis_results := resp.analysis_results
    ats_score := resp.ats_score
    total_weaknesses := resp.total_weaknesses
    jd_text := jd_sent
    weaknesses_covered := 0
    final_pdf_bytes := none
    app_state := .analysisDone }

/-- The session mutation on a 200 response from `/start-chat`
(`render_analysis_page`, app.py lines 107-113). -/
def apply_start_chat_success (s : ClientState) (first_ai_message : String) : ClientState :=
  { s with
    app_state := .chatMode
    messages := [⟨"assistant", first_ai_message⟩] }

/-- `is_complete = (weaknesses_covered == total_weaknesses)`
(`render_chat_page`, app.py line 131). -/
def is_complete (s : ClientState) : Bool :=
  s.weaknesses_covered == s.total_weaknesses

/-- `send_chat_message(prompt_text)` of `render_chat_page` (app.py lines
134-157).  The user's message is appended to the session history *before*
the backend call; `outcome` is `some data` for a 200 response with
body `data`, and `none` when the request fails (non-200 or exception), in
which case only an error is displayed and no further mutation happens. -/
def send_chat_message (s : ClientState) (prompt_text : String)
    (outcome : Option ChatResponse) : ClientState :=
  let s1 := { s with messages := s.messages ++ [⟨"user", prompt_text⟩] }
  match outcome with
  | none => s1
  | some data =>
    { s1 with
      weaknesses_covered :=
        if data.weakness_resolved then s1.weaknesses_covered + 1 else s1.weaknesses_covered
      messages := s1.messages ++ [⟨"assistant", data.ai_response⟩] }

/-- The session mutation on a 200 response from `/generate-resume`
(`render_chat_page`, app.py lines 179-183), only offered once
`is_complete` holds. -/
def apply_generate_success (s : ClientState) (template_key pdf_bytes : String) : ClientState :=
  { s with
    final_pdf_bytes := some pdf_bytes
    final_pdf_name := "improved_resume_" ++ template_key ++ ".pdf" }

/-- One transition of the client session, as wired by `app.py`'s router:
the analyze button is only shown on the home page, the start-chat button
only on the analysis page, and the chat input only in chat mode while
`is_complete` is false (app.py lines 199-201). -/
inductive ClientStep : ClientState → ClientState → Prop
  | newSession (s : ClientState) :
      ClientStep s clear_session
  | analyzeDone (s : ClientState) (jd_sent : String) (resp : AnalysisResponse) :
      s.app_state = .home →
      ClientStep s (apply_analyze_success s jd_sent resp)
  | startChat (s : ClientState) (first_ai_message : String) :
      s.app_state = .analysisDone →
      ClientStep s (apply_start_chat_success s first_ai_message)
  | chatTurn (s : ClientState) (prompt_text : String) (outcome : Option ChatResponse) :
      s.app_state = .chatMode →
      is_complete s = false →
      ClientStep s (send_chat_message s prompt_text outcome)
  | generated (s : ClientState) (template_key pdf_bytes : String) :
      s.app_state = .chatMode →
      is_complete s = true →
      ClientStep s (apply_generate_success s template_key pdf_bytes)

/-- The states a client session can be in: the first-contact reset, then any
sequence of transitions. -/
inductive ClientReachable : ClientState → Prop
  | init : ClientReachable clear_session
  | step {s t : ClientState} : ClientReachable s → ClientStep s t → ClientReachable t

/-- The counter invariant, by induction over reachability. -/
theorem weaknesses_covered_le_total {s : ClientState} (h : ClientReachable s) :
    s.weaknesses_covered ≤ s.total_weaknesses := by
  induction h with
  | init => simp [clear_session]
  | step _ hstep ih =>
    rename_i s t hr
    cases hstep with
    | newSession => simp [clear_session]
    | analyzeDone jd_sent resp _ => simp [apply_analyze_success]
    | startChat first_ai_message _ => simpa [apply_start_chat_success] using ih
    | chatTurn prompt_text outcome _ hnc =>
      have hne : s.weaknesses_covered ≠ s.total_weaknesses := by
        simpa [is_complete] using hnc
      cases outcome with
      | none => simpa [send_chat_message] using ih
      | some data =>
        by_cases hres : data.weakness_resolved <;>
          simp [send_chat_message, hres] <;> omega
    | generated template_key pdf_bytes _ _ =>
      simpa [apply_generate_success] using ih

/-! ### Helper lemmas -/

theorem matchDrop_eq_some_iff (needle : List Char) :
    ∀ l rest, matchDrop? needle l = some rest ↔ l = needle ++ rest := by
  induction needle with
  | nil =>
    intro l rest
    simp [matchDrop?, eq_comm]
  | cons p ps ih =>
    intro l rest
    cases l with
    | nil => simp [matchDrop?]
    | cons c cs =>
      simp only [matchDrop?, List.cons_append]
      by_cases hpc : p = c
      · subst hpc
        rw [if_pos rfl]
        simp [ih cs rest]
      · rw [if_neg hpc]
        constructor
        · intro h
          exact Option.noConfusion h
        · intro h
          injection h with h1 _
          exact absurd h1.symm hpc

theorem containsSub_eq_true_iff (needle : List Char) :
    ∀ l, containsSub needle l = true ↔ ∃ pre post, l = pre ++ needle ++ post := by
  intro l
  induction l with
  | nil =>
    simp [containsSub, Option.isSome_iff_exists, matchDrop_eq_some_iff]
  | cons c cs ih =>
    simp only [containsSub, Bool.or_eq_true, Option.isSome_iff_exists,
      matchDrop_eq_some_iff, ih]
    constructor
    · rintro (⟨rest, hrest⟩ | ⟨pre, post, h⟩)
      · exact ⟨[], rest, by simpa using hrest⟩
      · exact ⟨c :: pre, post, by simp [h]⟩
    · rintro ⟨pre, post, h⟩
      cases pre with
      | nil =>
        exact Or.inl ⟨post, by simpa using h⟩
      | cons d ds =>
        simp at h
        exact Or.inr ⟨ds, post, by simp [h.2]⟩

theorem replaceAllAux_singleton_not_mem {a : Char} (repl : List Char) :
    ∀ (fuel : Nat) (l : List Char), a ∉ l → replaceAllAux [a] repl fuel l = l := by
  intro fuel
  induction fuel with
  | zero =>
    intro l _
    cases l <;> simp [replaceAllAux]
  | succ f ih =>
    intro l hl
    cases l with
    | nil => simp [replaceAllAux]
    | cons c cs =>
      have hac : a ≠ c := fun h => hl (h ▸ List.mem_cons_self c cs)
      have hcs : a ∉ cs := fun h => hl (List.mem_cons_of_mem c h)
      simp [replaceAllAux, matchDrop?, hac, ih cs hcs]

theorem replaceAll_singleton_not_mem {a : Char} (repl l : List Char) (h : a ∉ l) :
    replaceAll [a] repl l = l :=
  replaceAllAux_singleton_not_mem repl l.length l h

theorem latin1Sanitize_of_le (l : List Char) (h : ∀ c ∈ l, c.toNat ≤ 255) :
    latin1Sanitize l = l := by
  induction l with
  | nil => simp [latin1Sanitize]
  | cons c cs ih =>
    have hc : c.toNat ≤ 255 := h c (List.mem_cons_self c cs)
    have hcs : ∀ d ∈ cs, d.toNat ≤ 255 := fun d hd => h d (List.mem_cons_of_mem c hd)
    simp only [latin1Sanitize, List.map_cons, if_pos hc]
    simpa [latin1Sanitize] using ih hcs

theorem string_mk_data (s : String) : String.mk s.data = s := by
  cases s
  rfl

theorem not_mem_of_all_le255 {l : List Char} (h : ∀ c ∈ l, c.toNat ≤ 255) {a : Char}
    (ha : 255 < a.toNat) : a ∉ l :=
  fun hm => absurd (h a hm) (Nat.not_le.mpr ha)

/-! ### Concrete example data shared by witnesses and counterexamples -/

/-- A concrete `/analyze` response body with two weaknesses. -/
def exampleAnalysisResponse : AnalysisResponse :=
  { resume_text := "resume body"
    analysis_results := "analysis summary"
    ats_score := 80
    total_weaknesses := 2 }

/-- A concrete reachable chat-mode client state: first contact, successful
analyze, successful start-chat. -/
def exampleChatState : ClientState :=
  apply_start_chat_success
    (apply_analyze_success clear_session "Engineer role" exampleAnalysisResponse)
    "Hello, let us fix weakness one."

/-- The raw engine reply used by the spec's token-parser example. -/
def exampleChatRawReply : String := "Great job! [WEAKNESS_RESOLVED]\nNext step..."

/-- A concrete targeted-mode engine analysis output with both numeric lines. -/
def exampleTargetedAnalysisText : String :=
  "ATS Score: 87\n\nThe resume matches well.\n\nWeaknesses:\n1. Missing keywords.\n\nTotal Weaknesses: 3"

/-- The same output without a Total Weaknesses line. -/
def exampleNoTotalAnalysisText : String :=
  "ATS Score: 87\n\nThe resume matches well.\n\nWeaknesses:\n1. Missing keywords."

/-! ### Claims -/

/-- C1: in every reachable client session state,
`0 ≤ weaknesses_covered ≤ total_weaknesses` (the lower bound is carried by
the `Nat` representation: the counter is only ever reset to `0` or
incremented); a guided-chat turn whose parsed result has `resolved = true`
increments the counter by exactly one and never past `total_weaknesses`
(turns are only offered while `is_complete` is false), and a turn with
`resolved = false` leaves the counter unchanged. -/
theorem guided_chat_counter_invariant :
    (∀ s : ClientState, ClientReachable s → s.weaknesses_covered ≤ s.total_weaknesses) ∧
    (∀ (s : ClientState) (prompt_text : String) (r : ChatResponse),
      ClientReachable s → s.app_state = AppState.chatMode → is_complete s = false →
        ((send_chat_message s prompt_text (some r)).weaknesses_covered
            = (if r.weakness_resolved then s.weaknesses_covered + 1 else s.weaknesses_covered)) ∧
        (send_chat_message s prompt_text (some r)).weaknesses_covered
            ≤ (send_chat_message s prompt_text (some r)).total_weaknesses ∧
        (send_chat_message s prompt_text (some r)).total_weaknesses = s.total_weaknesses) := by
  constructor
  · intro s h
    exact weaknesses_covered_le_total h
  · intro s prompt_text r hreach _ hnc
    have hle := weaknesses_covered_le_total hreach
    have hne : s.weaknesses_covered ≠ s.total_weaknesses := by
      simpa [is_complete] using hnc
    refine ⟨?_, ?_, ?_⟩
    · by_cases hres : r.weakness_resolved <;> simp [send_chat_message, hres]
    · by_cases hres : r.weakness_resolved <;> simp [send_chat_message, hres] <;> omega
    · simp [send_chat_message]

/-- Witness for C1 at a concrete reachable chat state with
`total_weaknesses = 2` and `weaknesses_covered = 0`: a resolved turn raises
the counter to `1 ≤ 2`. -/
theorem guided_chat_counter_invariant_witness :
    ClientReachable exampleChatState ∧
    exampleChatState.app_state = AppState.chatMode ∧
    is_complete exampleChatState = false ∧
    ((send_chat_message exampleChatState "Here are the metrics."
        (some ⟨"Great.", true⟩)).weaknesses_covered
      = (if (⟨"Great.", true⟩ : ChatResponse).weakness_resolved
          then exampleChatState.weaknesses_covered + 1
          else exampleChatState.weaknesses_covered)) ∧
    (send_chat_message exampleChatState "Here are the metrics."
        (some ⟨"Great.", true⟩)).weaknesses_covered
      ≤ (send_chat_message exampleChatState "Here are the metrics."
          (some ⟨"Great.", true⟩)).total_weaknesses := by
  have hreach : ClientReachable exampleChatState :=
    ClientReachable.step
      (ClientReachable.step ClientReachable.init
        (ClientStep.analyzeDone clear_session "Engineer role" exampleAnalysisResponse rfl))
      (ClientStep.startChat _ "Hello, let us fix weakness one." rfl)
  have h := guided_chat_counter_invariant.2 exampleChatState "Here are the metrics."
      ⟨"Great.", true⟩ hreach rfl (by decide)
  exact ⟨hreach, rfl, by decide, h.1, h.2.1⟩

/-- C2: each of the five engine-facing operations selects its general prompt
variant exactly when the supplied job-description text equals the sentinel
`DEFAULT_JD`, and the targeted variant for any other string; an ATS score is
parsed from engine output only in the targeted variant — with the sentinel,
the returned `ats_score` is `0` even when the output contains an
`ATS Score:` line. -/
theorem prompt_mode_branching :
    (∀ jd_text : String,
      (run_analysis_prompt_variant jd_text = PromptVariant.general ↔ jd_text = DEFAULT_JD) ∧
      (chat_prompt_variant jd_text = PromptVariant.general ↔ jd_text = DEFAULT_JD) ∧
      (generate_resume_prompt_variant jd_text = PromptVariant.general ↔ jd_text = DEFAULT_JD) ∧
      (start_build_chat_variant jd_text = PromptVariant.general ↔ jd_text = DEFAULT_JD) ∧
      (build_chat_prompt_variant jd_text = PromptVariant.general ↔ jd_text = DEFAULT_JD) ∧
      (run_analysis_prompt_variant jd_text = PromptVariant.targeted ↔ jd_text ≠ DEFAULT_JD)) ∧
    (∀ resume engineText : String,
      (run_analysis resume DEFAULT_JD engineText).ats_score = 0) ∧
    (run_analysis "r" DEFAULT_JD "ATS Score: 87\nTotal Weaknesses: 2").ats_score = 0 ∧
    (run_analysis "r" "Backend developer role" "ATS Score: 87\nTotal Weaknesses: 2").ats_score = 87 := by
  refine ⟨?_, ?_, by decide, by decide⟩
  · intro jd_text
    by_cases h : jd_text = DEFAULT_JD <;>
      simp [run_analysis_prompt_variant, chat_prompt_variant, generate_resume_prompt_variant,
        start_build_chat_variant, build_chat_prompt_variant, is_general_request, h]
  · intro resume engineText
    simp [run_analysis]

/-- C3 counterexample: on the spec's own example input the flag is parsed as
`true`, but the displayed text is not the claimed
`"Great job!\nNext step..."` — `.strip()` removes only leading and trailing
whitespace, so the space left behind before the newline survives. -/
theorem weakness_marker_example_text_differs :
    (parseChatReply exampleChatRawReply).weakness_resolved = true ∧
    (parseChatReply exampleChatRawReply).ai_response ≠ "Great job!\nNext step..." := by
  exact ⟨by decide, by decide⟩

/-- C3 (amended): the resolved flag is true iff the marker substring occurs
anywhere in the raw reply; the display text is the reply with all marker
occurrences removed and then only leading/trailing whitespace stripped, so
the example yields `"Great job! \nNext step..."` (internal space kept).
The same holds for the build-completion marker. -/
theorem weakness_marker_parse :
    (∀ raw : String,
      (parseChatReply raw).weakness_resolved = true ↔
        ∃ pre post : List Char, raw.data = pre ++ WEAKNESS_MARKER ++ post) ∧
    (∀ raw : String,
      (parseBuildReply raw).build_complete = true ↔
        ∃ pre post : List Char, raw.data = pre ++ BUILD_MARKER ++ post) ∧
    (parseChatReply exampleChatRawReply).weakness_resolved = true ∧
    (parseChatReply exampleChatRawReply).ai_response = "Great job! \nNext step..." ∧
    (parseBuildReply "Done. [BUILD_COMPLETE]").build_complete = true ∧
    (parseBuildReply "Done. [BUILD_COMPLETE]").ai_response = "Done." := by
  refine ⟨?_, ?_, by decide, by decide, by decide, by decide⟩
  · intro raw
    simpa [parseChatReply] using containsSub_eq_true_iff WEAKNESS_MARKER raw.data
  · intro raw
    simpa [parseBuildReply] using containsSub_eq_true_iff BUILD_MARKER raw.data

/-- C4: `total_weaknesses` equals the first case-insensitive
`Total Weaknesses: <digits>` match (default 1 when absent), clamped to a
minimum of 1; in targeted mode `ats_score` equals the first case-insensitive
`ATS Score: <digits>` match (default 0 when absent).  The spec's examples:
output with `ATS Score: 87` and `Total Weaknesses: 3` yields 87 and 3, output
without a Total Weaknesses line yields 1; extraction is case-insensitive and
takes the first match. -/
theorem analysis_numeric_extraction :
    (∀ resume jd_text engineText : String,
      (run_analysis resume jd_text engineText).total_weaknesses
        = max 1 ((searchNum twLabel engineText.data).getD 1)) ∧
    (∀ resume jd_text engineText : String, jd_text ≠ DEFAULT_JD →
      (run_analysis resume jd_text engineText).ats_score
        = (searchNum atsLabel engineText.data).getD 0) ∧
    (run_analysis "r" "Engineer role" exampleTargetedAnalysisText).ats_score = 87 ∧
    (run_analysis "r" "Engineer role" exampleTargetedAnalysisText).total_weaknesses = 3 ∧
    (run_analysis "r" "Engineer role" exampleNoTotalAnalysisText).total_weaknesses = 1 ∧
    (run_analysis "r" "Engineer role" "total weaknesses: 4 Total Weaknesses: 9").total_weaknesses = 4 := by
  refine ⟨?_, ?_, by decide, by decide, by decide, by decide⟩
  · intro resume jd_text engineText
    rfl
  · intro resume jd_text engineText hne
    have hb : (jd_text == DEFAULT_JD) = false := beq_eq_false_iff_ne.mpr hne
    simp [run_analysis, hb]

/-- Witness for C4's targeted-mode hypothesis at a concrete non-sentinel
job description and an output with no score line (default 0). -/
theorem analysis_numeric_extraction_witness :
    ("Engineer role" : String) ≠ DEFAULT_JD ∧
    (run_analysis "r" "Engineer role" "No score reported.").ats_score
      = (searchNum atsLabel ("No score reported." : String).data).getD 0 :=
  ⟨by decide, analysis_numeric_extraction.2.1 "r" "Engineer role" "No score reported." (by decide)⟩

/-- C5 counterexample: a failed guided-chat turn does modify the session
state — the user's message is appended to the history before the backend
call and remains there when the call fails. -/
theorem chat_failure_modifies_history :
    (send_chat_message exampleChatState "Please retry." none).messages
      ≠ exampleChatState.messages := by
  decide

/-- C5 (amended): on a failed guided-chat turn no counter is incremented, no
assistant reply is appended, and every other session field is unchanged, but
the user's message has already been appended to the history (it was committed
before the backend call), so a retry resends from a history that already
contains it. -/
theorem chat_failure_keeps_all_but_user_append :
    ∀ (s : ClientState) (prompt_text : String),
      (send_chat_message s prompt_text none).weaknesses_covered = s.weaknesses_covered ∧
      (send_chat_message s prompt_text none).total_weaknesses = s.total_weaknesses ∧
      (send_chat_message s prompt_text none).app_state = s.app_state ∧
      (send_chat_message s prompt_text none).resume_text = s.resume_text ∧
      (send_chat_message s prompt_text none).analysis_results = s.analysis_results ∧
      (send_chat_message s prompt_text none).ats_score = s.ats_score ∧
      (send_chat_message s prompt_text none).jd_text = s.jd_text ∧
      (send_chat_message s prompt_text none).messages
        = s.messages ++ [{ role := "user", content := prompt_text }] := by
  intro s prompt_text
  simp [send_chat_message]

/-- C6 counterexample: an extracted text of 17 characters (< 50) is not
rejected by `/analyze` — the endpoint only rejects empty text, and the
analysis runs on the short text. -/
theorem short_text_is_analyzed :
    ("short resume text" : String).length < 50 ∧
    analyze_resume_endpoint "short resume text" DEFAULT_JD "Looks fine overall."
      = AnalyzeOutcome.analyzed "short resume text"
          (run_analysis "short resume text" DEFAULT_JD "Looks fine overall.") := by
  exact ⟨by decide, by decide⟩

/-- C6 (amended): the `/analyze` endpoint of `main.py` rejects exactly the
empty extracted text (no 50-character minimum); the 50-character minimum is
enforced on the resume text synthesized from an interview before the
loop-back analysis, and by the secondary backend copy's analyze endpoint
(`config.py`). -/
theorem min_text_length_gates :
    (∀ extracted jd_text engineText : String,
      analyze_resume_endpoint extracted jd_text engineText
          = AnalyzeOutcome.rejected "Could not extract text from file."
        ↔ extracted = "") ∧
    (∀ synth jd_text engineText : String,
      synthesize_and_analyze_endpoint synth jd_text engineText
          = AnalyzeOutcome.rejected "Failed to synthesize resume from chat."
        ↔ synth.length < 50) ∧
    (∀ text : String, copy2_analyze_gate_rejects text = true ↔ text.length < 50) := by
  refine ⟨?_, ?_, ?_⟩
  · intro extracted jd_text engineText
    by_cases h : extracted = "" <;> simp [analyze_resume_endpoint, h]
  · intro synth jd_text engineText
    by_cases h50 : synth.length < 50
    · have hc : (synth == "" || decide (synth.length < 50)) = true := by simp [h50]
      simp [synthesize_and_analyze_endpoint, hc, h50]
    · have hne : synth ≠ "" := by
        intro h
        subst h
        exact h50 (by decide)
      have hc : (synth == "" || decide (synth.length < 50)) = false := by
        simp [h50, hne]
      simp [synthesize_and_analyze_endpoint, hc, h50, hne]
  · intro text
    constructor
    · intro hg
      by_cases h : text = ""
      · subst h
        decide
      · have hd : decide (text.length < 50) = true := by
          simpa [copy2_analyze_gate_rejects, h] using hg
        simpa using hd
    · intro h50
      simp [copy2_analyze_gate_rejects, h50]

/-- C7: normalization (typographic replacement map followed by latin-1
encode/decode with replacement) is a no-op on any string whose characters
all lie in the latin-1 range. -/
theorem charset_normalization_noop :
    ∀ s : String, (∀ c ∈ s.data, c.toNat ≤ 255) → normalizePdfText s = s := by
  intro s h
  have r1 : replaceAll ['–'] ['-'] s.data = s.data :=
    replaceAll_singleton_not_mem _ _ (not_mem_of_all_le255 h (by decide))
  have r2 : replaceAll ['—'] ['-', '-'] s.data = s.data :=
    replaceAll_singleton_not_mem _ _ (not_mem_of_all_le255 h (by decide))
  have r3 : replaceAll ['‘'] ['\x27'] s.data = s.data :=
    replaceAll_singleton_not_mem _ _ (not_mem_of_all_le255 h (by decide))
  have r4 : replaceAll ['’'] ['\x27'] s.data = s.data :=
    replaceAll_singleton_not_mem _ _ (not_mem_of_all_le255 h (by decide))
  have r5 : replaceAll ['“'] ['\x22'] s.data = s.data :=
    replaceAll_singleton_not_mem _ _ (not_mem_of_all_le255 h (by decide))
  have r6 : replaceAll ['”'] ['\x22'] s.data = s.data :=
    replaceAll_singleton_not_mem _ _ (not_mem_of_all_le255 h (by decide))
  have r7 : replaceAll ['•'] ['-'] s.data = s.data :=
    replaceAll_singleton_not_mem _ _ (not_mem_of_all_le255 h (by decide))
  have hrep : applyReplacements s.data = s.data := by
    simp only [applyReplacements, pdfReplacements, List.foldl]
    rw [r1, r2, r3, r4, r5, r6, r7]
  unfold normalizePdfText
  rw [hrep, latin1Sanitize_of_le s.data h, string_mk_data]

/-- Witness for C7 at a concrete latin-1-only string. -/
theorem charset_normalization_noop_witness :
    (∀ c ∈ ("Resume - plain text." : String).data, c.toNat ≤ 255) ∧
    normalizePdfText "Resume - plain text." = "Resume - plain text." :=
  ⟨by decide, charset_normalization_noop "Resume - plain text." (by decide)⟩

/-- C8 counterexample: the parser applies no upper clamp, so an engine
output reporting `ATS Score: 250` yields an `ats_score` of 250, outside the
claimed 0-100 range. -/
theorem ats_score_range_counterexample :
    (run_analysis "r" "Engineer role" "ATS Score: 250").ats_score = 250 ∧
    ¬ (run_analysis "r" "Engineer role" "ATS Score: 250").ats_score ≤ 100 := by
  exact ⟨by decide, by decide⟩

/-- C8 (amended): `ats_score` is a nonnegative integer with no upper clamp
(it may exceed 100 when the engine output does); it is always 0 in general
mode, but 0 also occurs in targeted mode when no score line parses, so a
score of 0 does not imply general mode. -/
theorem ats_score_amended :
    (∀ resume engineText : String,
      (run_analysis resume DEFAULT_JD engineText).ats_score = 0) ∧
    (run_analysis "r" "Engineer role" "ATS Score: 250").ats_score = 250 ∧
    (run_analysis "r" "Engineer role" "General remarks only.").ats_score = 0 := by
  refine ⟨?_, by decide, by decide⟩
  intro resume engineText
  simp [run_analysis]

/-- C9: a `generate_document` request with an unknown template name does not
fail — the dictionary lookup silently falls back to the classic skeleton for
the synthesis prompt, while the Content-Disposition filename still embeds
the requested template name verbatim. -/
theorem unknown_template_falls_back_to_classic :
    ∀ template_name jd_text engineReply : String,
      template_name ≠ "classic" → template_name ≠ "modern" → template_name ≠ "skills_first" →
        (generate_resume_endpoint template_name jd_text engineReply).synthesis_template
            = ATS_TEMPLATE_CLASSIC ∧
        (generate_resume_endpoint template_name jd_text engineReply).content_disposition
            = "attachment;filename=improved_resume_" ++ template_name ++ ".pdf" := by
  intro template_name jd_text engineReply h1 h2 h3
  have b1 : (template_name == "classic") = false := beq_eq_false_iff_ne.mpr h1
  have b2 : (template_name == "modern") = false := beq_eq_false_iff_ne.mpr h2
  have b3 : (template_name == "skills_first") = false := beq_eq_false_iff_ne.mpr h3
  constructor
  · simp [generate_resume_endpoint, TEMPLATES_get, b1, b2, b3]
  · rfl

/-- Witness for C9 at the unknown template name "fancy". -/
theorem unknown_template_falls_back_to_classic_witness :
    ("fancy" : String) ≠ "classic" ∧ ("fancy" : String) ≠ "modern" ∧
    ("fancy" : String) ≠ "skills_first" ∧
    (generate_resume_endpoint "fancy" DEFAULT_JD "Final resume text.").synthesis_template
        = ATS_TEMPLATE_CLASSIC ∧
    (generate_resume_endpoint "fancy" DEFAULT_JD "Final resume text.").content_disposition
        = "attachment;filename=improved_resume_" ++ "fancy" ++ ".pdf" := by
  have h := unknown_template_falls_back_to_classic "fancy" DEFAULT_JD "Final resume text."
      (by decide) (by decide) (by decide)
  exact ⟨by decide, by decide, by decide, h.1, h.2⟩

/-- C10: both chat endpoints read the last element of the request's message
list before composing any prompt, so a non-empty list is a precondition; on
the empty list the access is out of bounds (`getLast?` yields `none`), and
because it sits outside the `try` block the failure is never converted into
the endpoint's composed error detail.  With a non-empty list the access
never produces the uncaught index error. -/
theorem empty_messages_uncaught_index_error :
    (∀ (request : ChatRequest) (engine : Except String String), request.messages = [] →
      chat_endpoint request engine = EndpointOutcome.uncaughtIndexError ∧
      ∀ detail, chat_endpoint request engine ≠ EndpointOutcome.composedError detail) ∧
    (∀ (request : BuildChatRequest) (engine : Except String String), request.messages = [] →
      build_chat_endpoint request engine = EndpointOutcome.uncaughtIndexError ∧
      ∀ detail, build_chat_endpoint request engine ≠ EndpointOutcome.composedError detail) ∧
    (∀ (request : ChatRequest) (engine : Except String String), request.messages ≠ [] →
      chat_endpoint request engine ≠ EndpointOutcome.uncaughtIndexError) ∧
    (∀ (request : BuildChatRequest) (engine : Except String String), request.messages ≠ [] →
      build_chat_endpoint request engine ≠ EndpointOutcome.uncaughtIndexError) := by
  refine ⟨?_, ?_, ?_, ?_⟩
  · intro request engine h
    simp [chat_endpoint, h]
  · intro request engine h
    simp [build_chat_endpoint, h]
  · intro request engine h
    obtain ⟨x, hx⟩ := Option.isSome_iff_exists.mp (List.getLast?_isSome.mpr h)
    cases engine <;> simp [chat_endpoint, hx]
  · intro request engine h
    obtain ⟨x, hx⟩ := Option.isSome_iff_exists.mp (List.getLast?_isSome.mpr h)
    cases engine <;> simp [build_chat_endpoint, hx]

/-- Witness for C10 at concrete empty and non-empty requests. -/
theorem empty_messages_uncaught_index_error_witness :
    chat_endpoint { resume_text := "r", analysis_results := "a", messages := [], jd_text := "j" }
        (Except.ok "Reply.") = EndpointOutcome.uncaughtIndexError ∧
    build_chat_endpoint { messages := [], jd_text := "j" } (Except.ok "Reply.")
        = EndpointOutcome.uncaughtIndexError ∧
    chat_endpoint ⟨"r", "a", [⟨"user", "hi"⟩], "j"⟩ (Except.ok "Reply.")
        ≠ EndpointOutcome.uncaughtIndexError :=
  ⟨(empty_messages_uncaught_index_error.1 _ (Except.ok "Reply.") rfl).1,
   (empty_messages_uncaught_index_error.2.1 _ (Except.ok "Reply.") rfl).1,
   empty_messages_uncaught_index_error.2.2.1 _ (Except.ok "Reply.") (by decide)⟩

end ResumeImprover
